import Mathlib

/-!
Verification of the 3CX BigQuery query-agent core (`main.js`).

The Electron main process is shallowly embedded: the persisted
`electron-store` document becomes an explicit record of optional string
fields, the process-wide mutable variables (`bigqueryClient`,
`geminiClient`, `tableSchemaCache`) become fields of an `AppState`
record threaded through every handler, and each IPC handler becomes a
pure function from the old state (plus its inputs and the remote
services it may call) to the new state and its response value.

Remote services (BigQuery listing / metadata / query execution, the
Gemini model, the OAuth token-exchange endpoint) are modelled as
oracles supplied to the handler: an `Except String` result stands for a
resolved or rejected promise, the rejection carrying `e.message`.
JSON parsing of user-supplied documents is likewise an oracle; the
credential documents the app itself stores are kept as their raw text
(the app never inspects their contents beyond `type` / `client_email`).
-/

namespace BigQAgent

/-- JavaScript string truthiness for an optional store value:
`undefined` (absent) and the empty string are falsy. -/
def falsy : Option String → Bool
  | none => true
  | some s => s == ""

/-- JavaScript `s.trim()`: strip whitespace from both ends (written
over the character list so that it evaluates by reduction). -/
def jsTrim (s : String) : String :=
  ⟨((s.toList.dropWhile Char.isWhitespace).reverse.dropWhile Char.isWhitespace).reverse⟩

/-- A column descriptor as kept in `tableSchemaCache`:
one element of `meta.schema.fields`. -/
structure Field where
  name : String
  type : String
deriving DecidableEq, Repr

/-- The schema cache: a JS object, i.e. an insertion-ordered association
list from table id to its field list (keys unique). -/
abbrev SchemaCache := List (String × List Field)

/-- JS object property assignment `obj[k] = v`: overwrite in place when
the key exists, otherwise append (insertion order preserved). -/
def objSet (c : List (String × α)) (k : String) (v : α) : List (String × α) :=
  match c with
  | [] => [(k, v)]
  | (k2, v2) :: rest => if k2 == k then (k, v) :: rest else (k2, v2) :: objSet rest k v

/-- The transient OAuth client pair kept in `pendingOauthClient`
(stored as JSON text in the app; here as the parsed record, with
`JSON.parse('{}')` becoming the record with both fields absent). -/
structure PendingClient where
  clientId : Option String := none
  clientSecret : Option String := none
deriving DecidableEq, Repr

/-- The flat persisted `electron-store` document. -/
structure StoreState where
  projectId : Option String := none
  datasetId : Option String := none
  geminiKey : Option String := none
  authMethod : Option String := none
  serviceAccountJson : Option String := none
  oauthClientId : Option String := none
  oauthClientSecret : Option String := none
  oauthTokens : Option String := none
  pendingOauthClient : Option PendingClient := none
deriving DecidableEq, Repr

/-- The warehouse client handle: opaque to callers, but remembering the
configuration it was built from (`new BigQuery(...)` in the three auth
branches).  Stored credential documents are kept as raw text. -/
inductive BQClient where
  | serviceAccount (projectId : String) (credJson : String)
  | browser (projectId : String) (clientId : Option String)
      (clientSecret : Option String) (tokens : String)
  | ambient (projectId : String)
deriving DecidableEq, Repr

/-- The whole mutable state of the main process: the store plus the
three module-level variables. The Gemini client is just its API key. -/
structure AppState where
  store : StoreState
  bigqueryClient : Option BQClient := none
  geminiClient : Option String := none
  tableSchemaCache : SchemaCache := []
deriving DecidableEq, Repr

/-! ## JS values and the result normalizer -/

mutual
/-- The JavaScript values that can appear in a BigQuery result row, as
far as `serializeValue` distinguishes them. Numbers are modelled as
mathematical integers (`Number(bigint)` precision loss is outside the
scope of this model, which tracks which rule fires, not float
rounding); a `Date` is carried as its ISO-8601 rendering. -/
inductive JSValue where
  | jsNull
  | jsUndefined
  | jsBool (b : Bool)
  | jsNumber (n : Int)
  | jsString (s : String)
  | jsBigInt (n : Int)
  | jsDate (iso : String)
  | jsObject (fields : JSFields)
deriving DecidableEq, Repr

/-- The (insertion-ordered) own properties of a JS object value. -/
inductive JSFields where
  | nil
  | cons (key : String) (value : JSValue) (rest : JSFields)
deriving DecidableEq, Repr
end

open JSValue

/-- Property lookup in an object's field list (first occurrence). -/
def JSFields.lookup : JSFields → String → Option JSValue
  | .nil, _ => none
  | .cons k v rest, key => if k == key then some v else rest.lookup key

/-- JavaScript `typeof`. -/
def typeofJS : JSValue → String
  | jsNull => "object"
  | jsUndefined => "undefined"
  | jsBool _ => "boolean"
  | jsNumber _ => "number"
  | jsString _ => "string"
  | jsBigInt _ => "bigint"
  | jsDate _ => "object"
  | jsObject _ => "object"

/-- JavaScript `v instanceof Date`. -/
def instanceofDate : JSValue → Bool
  | jsDate _ => true
  | _ => false

/-- JavaScript property read `v.value`: `undefined` unless `v` is an
object with that key. -/
def getValueProp : JSValue → JSValue
  | jsObject fields => (JSFields.lookup fields "value").getD jsUndefined
  | _ => jsUndefined

/-- `Number(v)` on a bigint (exact in this model, see `JSValue`). -/
def numberOfBigInt : JSValue → Int
  | jsBigInt n => n
  | _ => 0

/-- `v.toISOString()` on a Date. -/
def toISOStringOf : JSValue → String
  | jsDate iso => iso
  | _ => ""

mutual
/-- `JSON.stringify` restricted to the modelled values. The
`jsUndefined` case is unreachable from `serializeValue` (its `typeof`
is not `"object"`). -/
def jsonStringify : JSValue → String
  | jsNull => "null"
  | jsUndefined => "null"
  | jsBool b => if b then "true" else "false"
  | jsNumber n => toString n
  | jsString s => "\"" ++ s ++ "\""
  | jsBigInt n => toString n
  | jsDate iso => "\"" ++ iso ++ "\""
  | jsObject fields => "\x7b" ++ jsonFields fields ++ "\x7d"

/-- Comma-separated `"key":value` members of an object literal. -/
def jsonFields : JSFields → String
  | .nil => ""
  | .cons k v .nil => "\"" ++ k ++ "\":" ++ jsonStringify v
  | .cons k v rest => "\"" ++ k ++ "\":" ++ jsonStringify v ++ "," ++ jsonFields rest
end

/-- `serializeValue` from `main.js`, guard for guard:
null/undefined, `typeof v === 'bigint'`, `v instanceof Date`,
`typeof v === 'object' && v.value !== undefined`,
`typeof v === 'object'`, then pass-through. -/
def serializeValue (v : JSValue) : JSValue :=
  if v = jsNull ∨ v = jsUndefined then jsNull
  else if typeofJS v = "bigint" then jsNumber (numberOfBigInt v)
  else if instanceofDate v then jsString (toISOStringOf v)
  else if typeofJS v = "object" ∧ getValueProp v ≠ jsUndefined then getValueProp v
  else if typeofJS v = "object" then jsString (jsonStringify v)
  else v

/-! Spec-side restatement of the normalizer, written from the spec's
rule list (§4.4) for the refinement claim C9: six rules, first match
wins, each rule phrased by the kind of value it names. -/

/-- Spec rule 1: the value is null or absent. -/
def ruleNullish (v : JSValue) : Bool := v == jsNull || v == jsUndefined

/-- Spec rule 2: an unbounded-precision integer. -/
def ruleUnboundedInt : JSValue → Bool
  | jsBigInt _ => true
  | _ => false

/-- Spec rule 3: a date/time value. -/
def ruleDateTime : JSValue → Bool
  | jsDate _ => true
  | _ => false

/-- Spec rule 5 shape: the value is an object (composite) value. -/
def ruleOtherObject : JSValue → Bool
  | jsObject _ => true
  | _ => false

/-- Spec rule 4: an object exposing a defined `value` accessor
(the warehouse wrapper pattern). -/
def ruleWrapper (v : JSValue) : Bool :=
  ruleOtherObject v && !(getValueProp v == jsUndefined)

/-- The normalizer exactly as the spec words it: apply the first
matching rule of the fixed six-rule order. -/
def serializeSpec (v : JSValue) : JSValue :=
  if ruleNullish v then jsNull
  else if ruleUnboundedInt v then jsNumber (numberOfBigInt v)
  else if ruleDateTime v then jsString (toISOStringOf v)
  else if ruleWrapper v then getValueProp v
  else if ruleOtherObject v then jsString (jsonStringify v)
  else v

/-! ## Response envelopes -/

/-- A normalized BigQuery result row as sent to the renderer. -/
abbrev Row := List (String × JSValue)

/-- Response of `config:save`. -/
structure SaveResp where
  ok : Bool
deriving DecidableEq, Repr

/-- Response of `auth:pickJsonFile`. -/
structure PickResp where
  ok : Bool
  email : Option String := none
  error : Option String := none
deriving DecidableEq, Repr

/-- Response of `auth:browserLogin`. -/
structure LoginResp where
  ok : Bool
  authUrl : Option String := none
  error : Option String := none
deriving DecidableEq, Repr

/-- Response of `auth:submitOauthCode`. -/
structure CodeResp where
  ok : Bool
  error : Option String := none
deriving DecidableEq, Repr

/-- Response of `agent:testConnection`. -/
structure TcResp where
  ok : Bool
  tables : List String := []
  error : Option String := none
deriving DecidableEq, Repr

/-- The result envelope of `agent:query`; a key the handler's object
literal omits is modelled as `none` / `[]`. -/
structure Envelope where
  ok : Bool
  sql : Option String := none
  rows : List Row := []
  columns : List String := []
  message : Option String := none
  error : Option String := none
deriving DecidableEq, Repr

/-- The `catch` branch of `agent:query`:
`return ok false, error e.message, sql null`. -/
def errEnv (e : String) : Envelope := ⟨false, none, [], [], none, some e⟩

/-- How many remote calls a handler run performed, per service. -/
structure Calls where
  listings : Nat := 0
  generations : Nat := 0
  queries : Nat := 0
deriving DecidableEq, Repr

/-! ## Config and credential handlers -/

/-- The partial config object the renderer passes to `config:save`.
The handler only ever persists the first four fields; the OAuth pair
the renderer's browser-login path sends along is dropped. -/
structure ConfigIn where
  projectId : Option String := none
  datasetId : Option String := none
  geminiKey : Option String := none
  authMethod : Option String := none
  oauthClientId : Option String := none
  oauthClientSecret : Option String := none
deriving DecidableEq, Repr

/-- `config:save`: store each truthy field (trimmed, except
`authMethod`), then reset both clients and the schema cache. -/
def configSave (st : AppState) (cfg : ConfigIn) : AppState × SaveResp :=
  let s0 := st.store
  let s1 := if !falsy cfg.projectId then
      { s0 with projectId := some (jsTrim (cfg.projectId.getD "")) } else s0
  let s2 := if !falsy cfg.datasetId then
      { s1 with datasetId := some (jsTrim (cfg.datasetId.getD "")) } else s1
  let s3 := if !falsy cfg.geminiKey then
      { s2 with geminiKey := some (jsTrim (cfg.geminiKey.getD "")) } else s2
  let s4 := if !falsy cfg.authMethod then
      { s3 with authMethod := cfg.authMethod } else s3
  ({ store := s4, bigqueryClient := none, geminiClient := none,
     tableSchemaCache := [] }, ⟨true⟩)

/-- The outcome of the native open dialog plus `fs.readFileSync`:
cancelled / no selection, or the chosen file's read result. -/
inductive DialogResult where
  | canceled
  | picked (fileRead : Except String String)

/-- The fields of the parsed service-account document that the handler
inspects. -/
structure JsonDoc where
  type : Option String := none
  client_email : Option String := none
deriving DecidableEq, Repr

/-- `auth:pickJsonFile`: read the chosen file, `JSON.parse` it (the
`parseJson` oracle; a thrown parse error lands in the same catch as a
read error), validate `parsed.type === 'service_account'`, and only
then persist the raw document, switch the auth method and drop the
cached client. -/
def pickJsonFile (st : AppState) (dlg : DialogResult)
    (parseJson : String → Except String JsonDoc) : AppState × PickResp :=
  match dlg with
  | .canceled => (st, { ok := false })
  | .picked (.error e) =>
      (st, { ok := false, error := some ("Could not read file: " ++ e) })
  | .picked (.ok raw) =>
    match parseJson raw with
    | .error e =>
        (st, { ok := false, error := some ("Could not read file: " ++ e) })
    | .ok parsed =>
      if falsy parsed.type || parsed.type != some "service_account" then
        (st, { ok := false,
               error := some "Not a valid service account JSON file. Make sure you downloaded the right key." })
      else
        ({ st with
             store := { st.store with
                          serviceAccountJson := some raw,
                          authMethod := some "serviceAccount" },
             bigqueryClient := none },
         { ok := true, email := parsed.client_email })

/-- `oauth2Client.generateAuthUrl(...)`: an opaque URL built from the
client id (scopes and access type are constants in the source). -/
def generateAuthUrl (clientId : String) : String :=
  "https://accounts.google.com/o/oauth2/v2/auth?client_id=" ++ clientId

/-- `auth:browserLogin`: require the stored OAuth client pair, build
the auth URL, open it externally (the returned `Bool` records that the
browser launch happened), persist `authMethod` and the pending client.
Neither the cached client nor the schema cache is touched. -/
def browserLogin (st : AppState) : AppState × LoginResp × Bool :=
  let clientId := st.store.oauthClientId.getD ""
  let clientSecret := st.store.oauthClientSecret.getD ""
  if clientId == "" || clientSecret == "" then
    (st, { ok := false,
           error := some "OAuth client credentials not configured. Add your OAuth2 Client ID and Secret in settings, or use a service account JSON instead." },
     false)
  else
    let authUrl := generateAuthUrl clientId
    ({ st with
         store := { st.store with
                      authMethod := some "browser",
                      pendingOauthClient :=
                        some ⟨some clientId, some clientSecret⟩ } },
     { ok := true, authUrl := some authUrl }, true)

/-- `auth:submitOauthCode`: read the pending client
(`JSON.parse(store.get('pendingOauthClient','{}'))`), attempt the
token exchange (`getToken`, a remote oracle receiving the pending id,
secret and the trimmed code), and on success persist the tokens,
switch the method and drop the cached client; any failure is caught
and reported, leaving the state untouched. -/
def submitOauthCode (st : AppState) (code : String)
    (getToken : Option String → Option String → String → Except String String) :
    AppState × CodeResp :=
  let pending := st.store.pendingOauthClient.getD ⟨none, none⟩
  match getToken pending.clientId pending.clientSecret (jsTrim code) with
  | .ok tokens =>
      ({ st with
           store := { st.store with
                        oauthTokens := some tokens,
                        authMethod := some "browser" },
           bigqueryClient := none },
       { ok := true })
  | .error e => (st, { ok := false, error := some ("Token exchange failed: " ++ e) })

/-! ## Client factories -/

/-- `getBigQueryClient()`: return the cached handle, else construct one
from the current configuration (caching it), or throw (`.error`) the
matching configuration message. -/
def getBigQueryClient (st : AppState) : Except String (BQClient × AppState) :=
  match st.bigqueryClient with
  | some c => .ok (c, st)
  | none =>
    let projectIdOpt := st.store.projectId
    let authMethod := st.store.authMethod.getD "serviceAccount"
    if falsy projectIdOpt then
      .error "No Google Cloud Project ID configured. Go to Settings."
    else
      let projectId := projectIdOpt.getD ""
      if authMethod == "serviceAccount" then
        let jsonRaw := st.store.serviceAccountJson
        if falsy jsonRaw then
          .error "No service account JSON uploaded. Go to Settings and upload your key file."
        else
          let c := BQClient.serviceAccount projectId (jsonRaw.getD "")
          .ok (c, { st with bigqueryClient := some c })
      else if authMethod == "browser" then
        let tokensRaw := st.store.oauthTokens
        if falsy tokensRaw then
          .error "Browser auth not completed. Go to Settings and sign in."
        else
          let pending := st.store.pendingOauthClient.getD ⟨none, none⟩
          let c := BQClient.browser projectId pending.clientId
                     pending.clientSecret (tokensRaw.getD "")
          .ok (c, { st with bigqueryClient := some c })
      else
        let c := BQClient.ambient projectId
        .ok (c, { st with bigqueryClient := some c })

/-- `getGeminiClient()`: cached key, else require `geminiKey`. -/
def getGeminiClient (st : AppState) : Except String (String × AppState) :=
  match st.geminiClient with
  | some g => .ok (g, st)
  | none =>
    let key := st.store.geminiKey
    if falsy key then
      .error "No Gemini API key configured. Go to Settings and add your key."
    else
      let g := key.getD ""
      .ok (g, { st with geminiClient := some g })

/-! ## Remote services and the schema walk -/

/-- The remote services, as oracles: the dataset's table listing
(`bq.dataset(d).getTables()`, yielding table ids), per-table metadata
(`table.getMetadata()`, already flattened to
`meta.schema?.fields || []`), the Gemini generation call
(prompt to response text), and query execution. An `.error` is a
rejected promise carrying `e.message`. -/
structure Remote where
  getTables : Except String (List String)
  getMetadata : String → Except String (List Field)
  generate : String → Except String String
  runQuery : String → Except String (List Row)

/-- The `for (const table of tables)` metadata loop shared by
`agent:query` and `agent:testConnection`: writes each table's fields
into the cache in order and stops at the first metadata failure,
leaving the writes made so far in place. -/
def walkTables (meta : String → Except String (List Field)) :
    List String → SchemaCache → SchemaCache × Option String
  | [], c => (c, none)
  | t :: ts, c =>
    match meta t with
    | .error e => (c, some e)
    | .ok fs => walkTables meta ts (objSet c t fs)

/-- `agent:testConnection`: resolve the client, require `datasetId`,
list the tables, then prime the schema cache with the metadata walk;
any failure is caught into `ok, false, e.message` with all state
changes made so far kept. -/
def testConnection (st : AppState) (r : Remote) : AppState × TcResp :=
  match getBigQueryClient st with
  | .error e => (st, { ok := false, error := some e })
  | .ok (_, st1) =>
    if falsy st1.store.datasetId then
      (st1, { ok := false, error := some "No BigQuery dataset configured. Go to Settings." })
    else
      match r.getTables with
      | .error e => (st1, { ok := false, error := some e })
      | .ok tables =>
        let walked := walkTables r.getMetadata tables st1.tableSchemaCache
        let st2 := { st1 with tableSchemaCache := walked.1 }
        match walked.2 with
        | some e => (st2, { ok := false, error := some e })
        | none => (st2, { ok := true, tables := tables })

/-! ## The query agent -/

/-- One table block of the prompt's schema description. -/
def columnsText (fields : List Field) : String :=
  String.intercalate "\n" (fields.map (fun f => "  " ++ f.name ++ " (" ++ f.type ++ ")"))

/-- The schema description `schemaText` built from the cache entries. -/
def buildSchemaText (projectId datasetId : String) (cache : SchemaCache) : String :=
  String.intercalate "\n\n" (cache.map (fun e =>
    "Table: `" ++ projectId ++ "." ++ datasetId ++ "." ++ e.1 ++ "`\n" ++ columnsText e.2))

/-- The literal system prompt sent to Gemini. -/
def systemPrompt (projectId datasetId schemaText userQuestion : String) : String :=
  "You are a BigQuery SQL expert for a 3CX phone system analytics database.\nGiven the following table schemas, write a valid BigQuery SQL query that answers the user\x27s question.\n\nSCHEMA:\n"
    ++ schemaText
    ++ "\n\nRULES:\n- Return ONLY the SQL query, nothing else — no markdown, no explanation, no backticks.\n- Use fully-qualified table names: `"
    ++ projectId ++ "." ++ datasetId
    ++ ".TableName`\n- Use STANDARD SQL (BigQuery default). DATE functions: CURRENT_DATE(), DATE_SUB(), FORMAT_DATE().\n- TIMESTAMP columns: use TIMESTAMP_TRUNC() for grouping by day/hour.\n- Limit results to 200 rows maximum unless the question asks for all data.\n- If the question cannot be answered from the schema, respond with exactly: CANNOT_ANSWER\n\nUSER QUESTION: "
    ++ userQuestion

/-- The fixed guidance message returned for the unanswerable sentinel. -/
def cannotAnswerMsg : String :=
  "I couldn\x27t find a way to answer that from the available 3CX data. Try rephrasing, or ask about calls, queues, extensions, or call durations."

/-- Steps 2–3 of `agent:query`, after the schema is ensured: build the
prompt, call Gemini, compare the trimmed output with the sentinel, and
otherwise execute the SQL and serialize the rows. `calls` carries the
listing count of the ensure step. -/
def agentQueryRest (st : AppState) (r : Remote) (userQuestion : String)
    (calls : Calls) (projectId datasetId : String) : AppState × Envelope × Calls :=
  let schemaText := buildSchemaText projectId datasetId st.tableSchemaCache
  let prompt := systemPrompt projectId datasetId schemaText userQuestion
  match r.generate prompt with
  | .error e => (st, errEnv e, { calls with generations := calls.generations + 1 })
  | .ok txt =>
    let sql := jsTrim txt
    if sql == "CANNOT_ANSWER" then
      (st, { ok := true, sql := none, rows := [], columns := [],
             message := some cannotAnswerMsg },
       { calls with generations := calls.generations + 1 })
    else
      match r.runQuery sql with
      | .error e =>
          (st, errEnv e,
           { calls with generations := calls.generations + 1,
                        queries := calls.queries + 1 })
      | .ok rows =>
        let columns := match rows with
          | [] => []
          | row :: _ => row.map (fun kv => kv.1)
        let serialized := rows.map (fun row =>
          row.map (fun kv => (kv.1, serializeValue kv.2)))
        (st, { ok := true, sql := some sql, rows := serialized,
               columns := columns, message := none },
         { calls with generations := calls.generations + 1,
                      queries := calls.queries + 1 })

/-- `agent:query`: resolve both clients, require `datasetId`, lazily
populate the schema cache when it is empty, then hand off to
`agentQueryRest`. Any thrown error is caught into
`ok false, error e.message, sql null`, keeping state changes already
made (client caching, partial cache writes). -/
def agentQuery (st : AppState) (r : Remote) (userQuestion : String) :
    AppState × Envelope × Calls :=
  match getBigQueryClient st with
  | .error e => (st, errEnv e, {})
  | .ok (_, st1) =>
    match getGeminiClient st1 with
    | .error e => (st1, errEnv e, {})
    | .ok (_, st2) =>
      let datasetId := st2.store.datasetId
      let projectId := st2.store.projectId
      if falsy datasetId then (st2, errEnv "No BigQuery dataset configured.", {})
      else if st2.tableSchemaCache.isEmpty then
        match r.getTables with
        | .error e => (st2, errEnv e, { listings := 1 })
        | .ok ts =>
          let walked := walkTables r.getMetadata ts st2.tableSchemaCache
          let st3 := { st2 with tableSchemaCache := walked.1 }
          match walked.2 with
          | some e => (st3, errEnv e, { listings := 1 })
          | none => agentQueryRest st3 r userQuestion { listings := 1 }
                      (projectId.getD "") (datasetId.getD "")
      else
        agentQueryRest st2 r userQuestion {} (projectId.getD "") (datasetId.getD "")

/-! ## The external-link handler -/

/-- `pat` is an initial segment of `s` (character lists). -/
def charsHasInit : List Char → List Char → Bool
  | [], _ => true
  | _ :: _, [] => false
  | p :: ps, c :: cs => p == c && charsHasInit ps cs

/-- `pat` occurs somewhere inside `s` (character lists). -/
def charsHasPart (pat : List Char) : List Char → Bool
  | [] => charsHasInit pat []
  | c :: cs => charsHasInit pat (c :: cs) || charsHasPart pat cs

/-- `s.startsWith(pat)` over the characters of the strings. -/
def jsStartsWith (s pat : String) : Bool :=
  charsHasInit pat.toList s.toList

/-- `s` contains `pat` as a substring. -/
def strMentions (pat s : String) : Bool :=
  charsHasPart pat.toList s.toList

/-- `shell:openExternal`: launch the browser only for `https://` URLs,
silently doing nothing otherwise. The result is the list of URLs whose
external open was performed. -/
def openExternalHandler (url : String) : List String :=
  if jsStartsWith url "https://" then [url] else []

/-! ## Derived notions used by the statements -/

/-- Whether an `Except` is a success. -/
def exOk : Except String α → Bool
  | .ok _ => true
  | .error _ => false

/-- The field list a successful metadata fetch returned (`[]` on error;
only used on successes). -/
def exFields : Except String (List Field) → List Field
  | .ok fs => fs
  | .error _ => []

/-- The cache entries contributed by the metadata walk before its first
failure: one entry per table of the longest successful front segment of
the listing, in listing order. -/
def okFetched (meta : String → Except String (List Field)) (ts : List String) :
    List (String × List Field) :=
  (ts.takeWhile (fun t => exOk (meta t))).map (fun t => (t, exFields (meta t)))

/-- The message of the first failing metadata fetch of the walk. -/
def firstWalkError (meta : String → Except String (List Field)) :
    List String → Option String
  | [] => none
  | t :: ts =>
    match meta t with
    | .error e => some e
    | .ok _ => firstWalkError meta ts

/-- `getBigQueryClient` succeeds from this state: either a cached
handle, or a project id plus the active method's credential material. -/
def clientConstructible (st : AppState) : Bool :=
  st.bigqueryClient.isSome ||
  (!falsy st.store.projectId &&
    (let m := st.store.authMethod.getD "serviceAccount"
     if m == "serviceAccount" then !falsy st.store.serviceAccountJson
     else if m == "browser" then !falsy st.store.oauthTokens
     else true))

/-- `getGeminiClient` succeeds from this state. -/
def geminiConstructible (st : AppState) : Bool :=
  st.geminiClient.isSome || !falsy st.store.geminiKey

/-! ## Concrete fixtures for witnesses and counterexamples -/

/-- A state holding a live client handle and a populated schema cache,
with the OAuth client pair configured. -/
def cex1St : AppState :=
  { store := { oauthClientId := some "cid", oauthClientSecret := some "sec" },
    bigqueryClient := some (.ambient "p"),
    tableSchemaCache := [("t", [])] }

/-- A state with the OAuth client pair configured. -/
def wit1St : AppState :=
  { store := { oauthClientId := some "cid", oauthClientSecret := some "sec" } }

/-- A parse oracle yielding a well-formed service-account document. -/
def wit1Parse : String → Except String JsonDoc :=
  fun _ => .ok { type := some "service_account", client_email := some "svc@example.com" }

/-- A fully configured state using the ambient-credentials fallback. -/
def cex2St : AppState :=
  { store := { projectId := some "p", datasetId := some "d",
               geminiKey := some "k", authMethod := some "apiKey" } }

/-- A remote whose second table's metadata fetch fails. -/
def cex2Remote : Remote :=
  { getTables := .ok ["a", "b"]
    getMetadata := fun t => if t == "a" then .ok [⟨"x", "STRING"⟩] else .error "boom"
    generate := fun _ => .error "unused"
    runQuery := fun _ => .error "unused" }

/-- A remote with a one-table dataset whose walk fully succeeds. -/
def wit2Remote : Remote :=
  { getTables := .ok ["a"]
    getMetadata := fun _ => .ok [⟨"x", "STRING"⟩]
    generate := fun _ => .error "gen"
    runQuery := fun _ => .error "unused" }

/-- A fully configured state (ambient credentials, Gemini key). -/
def cex3St : AppState :=
  { store := { projectId := some "p", datasetId := some "d",
               geminiKey := some "k", authMethod := some "apiKey" } }

/-- A remote for an empty dataset: the listing succeeds with no
tables. -/
def cex3Remote : Remote :=
  { getTables := .ok []
    getMetadata := fun _ => .error "unused"
    generate := fun _ => .error "gen"
    runQuery := fun _ => .error "unused" }

/-- A remote with a one-table dataset. -/
def wit3Remote : Remote :=
  { getTables := .ok ["calls"]
    getMetadata := fun _ => .ok [⟨"direction", "STRING"⟩]
    generate := fun _ => .error "gen"
    runQuery := fun _ => .error "unused" }

/-- A fully configured state with a populated schema cache. -/
def wit4St : AppState :=
  { store := { projectId := some "p", datasetId := some "d",
               geminiKey := some "k", authMethod := some "apiKey" },
    tableSchemaCache := [("calls", [⟨"direction", "STRING"⟩])] }

/-- A remote whose model output is exactly the unanswerable sentinel. -/
def wit4Remote : Remote :=
  { getTables := .error "unused"
    getMetadata := fun _ => .error "unused"
    generate := fun _ => .ok "CANNOT_ANSWER"
    runQuery := fun _ => .error "unused" }

/-- A state with project and Gemini key configured but no dataset. -/
def wit5St : AppState :=
  { store := { projectId := some "p", geminiKey := some "k",
               authMethod := some "apiKey" } }

/-- A remote that is never reached. -/
def wit5Remote : Remote :=
  { getTables := .error "unused"
    getMetadata := fun _ => .error "unused"
    generate := fun _ => .error "unused"
    runQuery := fun _ => .error "unused" }

/-- An empty starting state. -/
def wit6St : AppState := { store := {} }

/-- A parse oracle yielding a JSON document that is not a
service-account credential. -/
def wit6Parse : String → Except String JsonDoc :=
  fun _ => .ok { type := some "authorized_user" }

/-- A state in which no browser sign-in was ever initiated. -/
def wit7St : AppState := { store := { oauthClientId := some "cid" } }

/-- A token-exchange oracle that rejects (as the authorization server
does for a client without an id). -/
def wit7Exchange : Option String → Option String → String → Except String String :=
  fun _ _ _ => .error "invalid_grant"

/-- A state with a stored project id, a live client and a populated
cache. -/
def wit10St : AppState :=
  { store := { projectId := some "keepme" },
    bigqueryClient := some (.ambient "keepme"),
    geminiClient := some "k",
    tableSchemaCache := [("t", [])] }

/-- A save request all of whose fields are absent. -/
def wit10Cfg : ConfigIn := {}

/-! ## Helper lemmas -/

theorem getBigQueryClient_preserves {st st' : AppState} {c : BQClient}
    (h : getBigQueryClient st = .ok (c, st')) :
    st'.store = st.store ∧ st'.tableSchemaCache = st.tableSchemaCache ∧
      st'.geminiClient = st.geminiClient := by
  cases hb : st.bigqueryClient with
  | some c0 =>
    simp only [getBigQueryClient, hb, Except.ok.injEq, Prod.mk.injEq] at h
    obtain ⟨-, h2⟩ := h
    subst h2
    exact ⟨rfl, rfl, rfl⟩
  | none =>
    simp only [getBigQueryClient, hb] at h
    split_ifs at h <;>
      first
        | exact Except.noConfusion h
        | · injection h with hp
            injection hp with hc hst
            subst hst
            exact ⟨rfl, rfl, rfl⟩

theorem getGeminiClient_preserves {st st' : AppState} {g : String}
    (h : getGeminiClient st = .ok (g, st')) :
    st'.store = st.store ∧ st'.tableSchemaCache = st.tableSchemaCache ∧
      st'.bigqueryClient = st.bigqueryClient := by
  cases hg : st.geminiClient with
  | some g0 =>
    simp only [getGeminiClient, hg, Except.ok.injEq, Prod.mk.injEq] at h
    obtain ⟨-, h2⟩ := h
    subst h2
    exact ⟨rfl, rfl, rfl⟩
  | none =>
    simp only [getGeminiClient, hg] at h
    split_ifs at h
    all_goals
      first
        | exact Except.noConfusion h
        | · injection h with hp
            injection hp with hc hst
            subst hst
            exact ⟨rfl, rfl, rfl⟩

theorem getBigQueryClient_ok {st : AppState} (h : clientConstructible st = true) :
    ∃ c st', getBigQueryClient st = .ok (c, st') := by
  cases hb : st.bigqueryClient with
  | some c0 => exact ⟨c0, st, by simp [getBigQueryClient, hb]⟩
  | none =>
    simp only [clientConstructible, hb, Option.isSome_none, Bool.false_or,
      Bool.and_eq_true, Bool.not_eq_true'] at h
    obtain ⟨hp, hm⟩ := h
    simp only [getBigQueryClient, hb, hp, Bool.false_eq_true, if_false]
    split_ifs at hm ⊢ with h1 h2 h3 h4
    all_goals simp_all

theorem getGeminiClient_ok {st : AppState} (h : geminiConstructible st = true) :
    ∃ g st', getGeminiClient st = .ok (g, st') := by
  cases hg : st.geminiClient with
  | some g0 => exact ⟨g0, st, by simp [getGeminiClient, hg]⟩
  | none =>
    simp only [geminiConstructible, hg, Option.isSome_none, Bool.false_or,
      Bool.not_eq_true'] at h
    simp only [getGeminiClient, hg, h, Bool.false_eq_true, if_false]
    exact ⟨_, _, rfl⟩

theorem agentQueryRest_state (st : AppState) (r : Remote) (q : String)
    (calls : Calls) (pid did : String) :
    (agentQueryRest st r q calls pid did).1 = st ∧
    (agentQueryRest st r q calls pid did).2.2.listings = calls.listings := by
  cases hg : r.generate (systemPrompt pid did (buildSchemaText pid did st.tableSchemaCache) q) with
  | error e => simp [agentQueryRest, hg]
  | ok txt =>
    cases hs : (jsTrim txt == "CANNOT_ANSWER") with
    | true => simp [agentQueryRest, hg, hs]
    | false =>
      cases hq : r.runQuery (jsTrim txt) with
      | error e => simp [agentQueryRest, hg, hs, hq]
      | ok rows => simp [agentQueryRest, hg, hs, hq]

theorem walkTables_eq (meta : String → Except String (List Field))
    (ts : List String) (c : SchemaCache) :
    walkTables meta ts c =
      (List.foldl (fun acc ent => objSet acc ent.1 ent.2) c (okFetched meta ts),
       firstWalkError meta ts) := by
  induction ts generalizing c with
  | nil => simp [walkTables, okFetched, firstWalkError]
  | cons t ts ih =>
    cases hm : meta t with
    | error e =>
      simp [walkTables, okFetched, firstWalkError, hm, exOk]
    | ok fs =>
      simp [walkTables, okFetched, firstWalkError, hm, exOk, exFields, ih]

theorem foldl_objSet_cons (c : SchemaCache) (entries : List (String × List Field))
    (k : String) (v : List Field) (hk : k ∉ entries.map Prod.fst) :
    List.foldl (fun acc ent => objSet acc ent.1 ent.2) ((k, v) :: c) entries =
      (k, v) :: List.foldl (fun acc ent => objSet acc ent.1 ent.2) c entries := by
  induction entries generalizing c with
  | nil => rfl
  | cons e rest ih =>
    simp only [List.map_cons, List.mem_cons, not_or] at hk
    obtain ⟨h1, h2⟩ := hk
    simp only [List.foldl_cons, objSet, beq_eq_false_iff_ne.mpr h1, Bool.false_eq_true,
      if_false]
    exact ih _ h2

theorem foldl_objSet_nil (entries : List (String × List Field))
    (h : (entries.map Prod.fst).Nodup) :
    List.foldl (fun acc ent => objSet acc ent.1 ent.2) [] entries = entries := by
  induction entries with
  | nil => rfl
  | cons e rest ih =>
    simp only [List.map_cons, List.nodup_cons] at h
    obtain ⟨h1, h2⟩ := h
    simp only [List.foldl_cons]
    rw [show objSet ([] : SchemaCache) e.1 e.2 = [(e.1, e.2)] from rfl,
      foldl_objSet_cons _ _ _ _ h1, ih h2]

theorem agentQuery_cache_kept (st : AppState) (r : Remote) (q : String)
    (h : st.tableSchemaCache ≠ []) :
    (agentQuery st r q).2.2.listings = 0 ∧
    (agentQuery st r q).1.tableSchemaCache = st.tableSchemaCache := by
  unfold agentQuery
  cases hbq : getBigQueryClient st with
  | error e => simp
  | ok pr =>
    obtain ⟨c, st1⟩ := pr
    obtain ⟨-, hc1, -⟩ := getBigQueryClient_preserves hbq
    cases hg : getGeminiClient st1 with
    | error e => simp [hg, hc1]
    | ok pr2 =>
      obtain ⟨g, st2⟩ := pr2
      obtain ⟨-, hc2, -⟩ := getGeminiClient_preserves hg
      simp only [hg]
      split_ifs with hd he
      · simp [hc2, hc1]
      · exfalso
        rw [List.isEmpty_iff, hc2, hc1] at he
        exact h he
      · have := agentQueryRest_state st2 r q {} (st2.store.projectId.getD "")
          (st2.store.datasetId.getD "")
        exact ⟨this.2, by rw [this.1, hc2, hc1]⟩

theorem agentQuery_listings_le_one (st : AppState) (r : Remote) (q : String) :
    (agentQuery st r q).2.2.listings ≤ 1 := by
  unfold agentQuery
  cases hbq : getBigQueryClient st with
  | error e => simp
  | ok pr =>
    obtain ⟨c, st1⟩ := pr
    cases hg : getGeminiClient st1 with
    | error e => simp [hg]
    | ok pr2 =>
      obtain ⟨g, st2⟩ := pr2
      simp only [hg]
      split_ifs with hd he
      · simp
      · cases ht : r.getTables with
        | error e => simp
        | ok ts =>
          simp only
          cases hw : (walkTables r.getMetadata ts st2.tableSchemaCache).2 with
          | some e => simp
          | none =>
            simp only
            exact le_of_eq (agentQueryRest_state _ r q { listings := 1 } _ _).2
      · exact le_of_eq ((agentQueryRest_state st2 r q {} _ _).2.trans rfl) |>.trans (by simp)

theorem charsHasInit_extend (pat : List Char) :
    ∀ s rest : List Char, charsHasInit pat s = true →
      charsHasInit pat (s ++ rest) = true := by
  induction pat with
  | nil => intro s rest _; rfl
  | cons p ps ih =>
    intro s rest h
    cases s with
    | nil => exact absurd h (by simp [charsHasInit])
    | cons c cs =>
      simp only [charsHasInit, Bool.and_eq_true] at h
      simp only [List.cons_append, charsHasInit, Bool.and_eq_true]
      exact ⟨h.1, ih cs rest h.2⟩

theorem charsHasPart_of_init (pat s : List Char)
    (h : charsHasInit pat s = true) : charsHasPart pat s = true := by
  cases s with
  | nil => exact h
  | cons c cs => simp [charsHasPart, h]

/-! ## Claim theorems -/

/-- C6: a service-account upload whose file parses to JSON but whose
`type` field is absent or not `service_account` is rejected with the
invalid-credential message and persists nothing: the state (in
particular `serviceAccountJson` and `authMethod`) is unchanged. -/
theorem pickJsonFile_rejects_non_service_account (st : AppState) (raw : String)
    (parse : String → Except String JsonDoc) (d : JsonDoc)
    (hp : parse raw = .ok d)
    (ht : (falsy d.type || d.type != some "service_account") = true) :
    pickJsonFile st (.picked (.ok raw)) parse =
      (st, { ok := false,
             error := some "Not a valid service account JSON file. Make sure you downloaded the right key." }) ∧
    (pickJsonFile st (.picked (.ok raw)) parse).1.store.serviceAccountJson =
      st.store.serviceAccountJson ∧
    (pickJsonFile st (.picked (.ok raw)) parse).1.store.authMethod =
      st.store.authMethod := by
  have h1 : pickJsonFile st (.picked (.ok raw)) parse =
      (st, { ok := false,
             error := some "Not a valid service account JSON file. Make sure you downloaded the right key." }) := by
    simp [pickJsonFile, hp, ht]
  exact ⟨h1, by rw [h1], by rw [h1]⟩

/-- Witness for C6 at a concrete non-service-account document. -/
theorem pickJsonFile_rejects_non_service_account_witness :
    pickJsonFile wit6St (.picked (.ok "RAW")) wit6Parse =
      (wit6St, { ok := false,
                 error := some "Not a valid service account JSON file. Make sure you downloaded the right key." }) :=
  (pickJsonFile_rejects_non_service_account wit6St "RAW" wit6Parse
    { type := some "authorized_user" } rfl (by decide)).1

/-- C7: submitting an authorization code with no pending OAuth client
persisted leaves the state unchanged (in particular no tokens are
stored) and reports a token-exchange failure, whenever the exchange
attempted with the absent client credentials is rejected. -/
theorem submitOauthCode_without_pending (st : AppState) (code m : String)
    (ex : Option String → Option String → String → Except String String)
    (hpend : st.store.pendingOauthClient = none)
    (hex : ex none none (jsTrim code) = .error m) :
    submitOauthCode st code ex =
      (st, { ok := false, error := some ("Token exchange failed: " ++ m) }) ∧
    strMentions "Token exchange" ("Token exchange failed: " ++ m) = true ∧
    (submitOauthCode st code ex).1.store.oauthTokens = st.store.oauthTokens := by
  have h1 : submitOauthCode st code ex =
      (st, { ok := false, error := some ("Token exchange failed: " ++ m) }) := by
    simp [submitOauthCode, hpend, hex]
  refine ⟨h1, ?_, by rw [h1]⟩
  have hsplit : ("Token exchange failed: " ++ m) = "Token exchange" ++ (" failed: " ++ m) := by
    rw [show ("Token exchange failed: " : String) = "Token exchange" ++ " failed: " from by decide]
    rw [String.append_assoc]
  unfold strMentions
  rw [hsplit]
  apply charsHasPart_of_init
  have : ("Token exchange" ++ (" failed: " ++ m)).toList =
      "Token exchange".toList ++ (" failed: " ++ m).toList := by
    simp [String.toList, String.data_append]
  rw [this]
  exact charsHasInit_extend _ _ _ (by decide)

/-- Witness for C7 at a concrete state with no pending client and a
rejecting exchange oracle. -/
theorem submitOauthCode_without_pending_witness :
    submitOauthCode wit7St "the-code" wit7Exchange =
      (wit7St, { ok := false, error := some ("Token exchange failed: " ++ "invalid_grant") }) ∧
    strMentions "Token exchange" ("Token exchange failed: " ++ "invalid_grant") = true ∧
    (submitOauthCode wit7St "the-code" wit7Exchange).1.store.oauthTokens =
      wit7St.store.oauthTokens :=
  submitOauthCode_without_pending wit7St "the-code" "invalid_grant" wit7Exchange
    rfl rfl

/-- C8: the external-link handler launches the browser exactly for
URLs starting with `https://`, silently performing no launch (and
raising no error) otherwise. -/
theorem openExternal_https_allowlist (url : String) :
    (jsStartsWith url "https://" = false → openExternalHandler url = []) ∧
    (jsStartsWith url "https://" = true → openExternalHandler url = [url]) := by
  unfold openExternalHandler
  constructor <;> intro h <;> simp [h]

/-- Witness for C8 at a non-HTTPS and an HTTPS URL. -/
theorem openExternal_https_allowlist_witness :
    openExternalHandler "http://example.com" = [] ∧
    openExternalHandler "https://example.com" = ["https://example.com"] :=
  ⟨(openExternal_https_allowlist "http://example.com").1 (by decide),
   (openExternal_https_allowlist "https://example.com").2 (by decide)⟩

/-- C9: the result normalizer applies exactly the first matching rule
of the spec's fixed order (null, unbounded integer, date, wrapper
unwrap, generic object, pass-through): the source's guard chain equals
the spec-side first-match normalizer on every value. -/
theorem serializeValue_first_matching_rule (v : JSValue) :
    serializeValue v = serializeSpec v := by
  cases v with
  | jsNull => rfl
  | jsUndefined => rfl
  | jsBool b => rfl
  | jsNumber n => rfl
  | jsString s => rfl
  | jsBigInt n => rfl
  | jsDate iso => rfl
  | jsObject fields =>
    by_cases h : getValueProp (jsObject fields) = jsUndefined <;>
      simp [serializeValue, serializeSpec, ruleNullish, ruleUnboundedInt,
            ruleDateTime, ruleWrapper, ruleOtherObject, typeofJS, instanceofDate, h]

/-- C10: a `config:save` never clears a stored setting — every supplied
field that is empty (falsy) leaves the persisted value unchanged —
while the call still resets both client handles and the schema cache. -/
theorem configSave_preserves_empty_fields (st : AppState) (cfg : ConfigIn) :
    (falsy cfg.projectId = true →
      (configSave st cfg).1.store.projectId = st.store.projectId) ∧
    (falsy cfg.datasetId = true →
      (configSave st cfg).1.store.datasetId = st.store.datasetId) ∧
    (falsy cfg.geminiKey = true →
      (configSave st cfg).1.store.geminiKey = st.store.geminiKey) ∧
    (falsy cfg.authMethod = true →
      (configSave st cfg).1.store.authMethod = st.store.authMethod) ∧
    (configSave st cfg).1.bigqueryClient = none ∧
    (configSave st cfg).1.geminiClient = none ∧
    (configSave st cfg).1.tableSchemaCache = [] := by
  refine ⟨?_, ?_, ?_, ?_, rfl, rfl, rfl⟩ <;>
    · intro h
      unfold configSave
      split_ifs <;> simp_all

/-- Witness for C10 at a concrete state and an all-empty save request. -/
theorem configSave_preserves_empty_fields_witness :
    (configSave wit10St wit10Cfg).1.store.projectId = wit10St.store.projectId ∧
    (configSave wit10St wit10Cfg).1.bigqueryClient = none ∧
    (configSave wit10St wit10Cfg).1.geminiClient = none ∧
    (configSave wit10St wit10Cfg).1.tableSchemaCache = [] := by
  obtain ⟨h1, -, -, -, h5, h6, h7⟩ :=
    configSave_preserves_empty_fields wit10St wit10Cfg
  exact ⟨h1 (by decide), h5, h6, h7⟩

/-- C1 (amended): only `config:save` empties both the cached client
and the schema cache. A successful service-account upload or
authorization-code submission drops the cached client but leaves the
schema cache exactly as it was, and a successful browser sign-in
initiation leaves both the cached client and the schema cache
untouched. -/
theorem credential_writes_invalidation (st : AppState) :
    (∀ cfg : ConfigIn,
       (configSave st cfg).1.bigqueryClient = none ∧
       (configSave st cfg).1.tableSchemaCache = []) ∧
    (∀ (dlg : DialogResult) (parse : String → Except String JsonDoc),
       (pickJsonFile st dlg parse).2.ok = true →
       (pickJsonFile st dlg parse).1.bigqueryClient = none ∧
       (pickJsonFile st dlg parse).1.tableSchemaCache = st.tableSchemaCache) ∧
    (∀ (code : String)
       (ex : Option String → Option String → String → Except String String),
       (submitOauthCode st code ex).2.ok = true →
       (submitOauthCode st code ex).1.bigqueryClient = none ∧
       (submitOauthCode st code ex).1.tableSchemaCache = st.tableSchemaCache) ∧
    ((browserLogin st).2.1.ok = true →
       (browserLogin st).1.bigqueryClient = st.bigqueryClient ∧
       (browserLogin st).1.tableSchemaCache = st.tableSchemaCache) := by
  refine ⟨fun cfg => ⟨rfl, rfl⟩, ?_, ?_, ?_⟩
  · intro dlg parse h
    cases dlg with
    | canceled => exact absurd h (by simp [pickJsonFile])
    | picked fr =>
      cases fr with
      | error e => exact absurd h (by simp [pickJsonFile])
      | ok raw =>
        cases hp : parse raw with
        | error e => exact absurd h (by simp [pickJsonFile, hp])
        | ok d =>
          cases ht : (falsy d.type || d.type != some "service_account") with
          | true => exact absurd h (by simp [pickJsonFile, hp, ht])
          | false => simp [pickJsonFile, hp, ht]
  · intro code ex h
    cases he : ex (st.store.pendingOauthClient.getD ⟨none, none⟩).clientId
        (st.store.pendingOauthClient.getD ⟨none, none⟩).clientSecret (jsTrim code) with
    | ok tokens => simp [submitOauthCode, he]
    | error e => exact absurd h (by simp [submitOauthCode, he])
  · intro h
    simp only [browserLogin] at h ⊢
    split_ifs at h ⊢ with hcond
    exact ⟨rfl, rfl⟩

/-- Counterexample to C1 as stated: from a state with a live client
handle, a populated schema cache and the OAuth client pair configured,
a browser sign-in initiation succeeds (it writes the
credential-relevant fields `authMethod` and `pendingOauthClient`) yet
afterwards the client handle is still present and the schema cache is
still non-empty. -/
theorem credential_writes_invalidation_cex :
    (browserLogin cex1St).2.1.ok = true ∧
    (browserLogin cex1St).1.bigqueryClient ≠ none ∧
    (browserLogin cex1St).1.tableSchemaCache ≠ [] := by decide

/-- Witness for C1 (amended) at concrete inputs for all four
operations. -/
theorem credential_writes_invalidation_witness :
    ((configSave wit1St {}).1.bigqueryClient = none ∧
      (configSave wit1St {}).1.tableSchemaCache = []) ∧
    ((pickJsonFile wit1St (.picked (.ok "RAW")) wit1Parse).1.bigqueryClient = none ∧
      (pickJsonFile wit1St (.picked (.ok "RAW")) wit1Parse).1.tableSchemaCache =
        wit1St.tableSchemaCache) ∧
    ((submitOauthCode wit1St "c" (fun _ _ _ => .ok "TOK")).1.bigqueryClient = none ∧
      (submitOauthCode wit1St "c" (fun _ _ _ => .ok "TOK")).1.tableSchemaCache =
        wit1St.tableSchemaCache) ∧
    ((browserLogin wit1St).1.bigqueryClient = wit1St.bigqueryClient ∧
      (browserLogin wit1St).1.tableSchemaCache = wit1St.tableSchemaCache) := by
  obtain ⟨h1, h2, h3, h4⟩ := credential_writes_invalidation wit1St
  exact ⟨h1 {}, h2 _ _ (by decide), h3 "c" _ (by decide), h4 (by decide)⟩

/-- C5: submitting a question while `datasetId` is absent, from a state
in which both client constructions succeed, yields
`ok, false` with the dataset-mentioning error and `sql, null`, and
performs no remote call at all (no listing, no model generation, no
query execution). -/
theorem agentQuery_dataset_missing (st : AppState) (r : Remote) (q : String)
    (hc : clientConstructible st = true)
    (hk : geminiConstructible st = true)
    (hd : falsy st.store.datasetId = true) :
    (agentQuery st r q).2.1 = errEnv "No BigQuery dataset configured." ∧
    strMentions "dataset" "No BigQuery dataset configured." = true ∧
    (agentQuery st r q).2.2 = {} := by
  obtain ⟨c, st1, hbq⟩ := getBigQueryClient_ok hc
  obtain ⟨hs1, hc1, hg1⟩ := getBigQueryClient_preserves hbq
  have hk1 : geminiConstructible st1 = true := by
    unfold geminiConstructible at hk ⊢
    rw [hs1, hg1]
    exact hk
  obtain ⟨g, st2, hgem⟩ := getGeminiClient_ok hk1
  obtain ⟨hs2, hc2, hb2⟩ := getGeminiClient_preserves hgem
  refine ⟨?_, by decide, ?_⟩ <;>
    simp [agentQuery, hbq, hgem, hs2, hs1, hd]

/-- Witness for C5 at a concrete configured state without a dataset. -/
theorem agentQuery_dataset_missing_witness :
    (agentQuery wit5St wit5Remote "how many calls?").2.1 =
      errEnv "No BigQuery dataset configured." ∧
    strMentions "dataset" "No BigQuery dataset configured." = true ∧
    (agentQuery wit5St wit5Remote "how many calls?").2.2 = {} :=
  agentQuery_dataset_missing wit5St wit5Remote "how many calls?"
    (by decide) (by decide) (by decide)

theorem agentQueryRest_sentinel {out : String} (st : AppState) (r : Remote)
    (q : String) (calls : Calls) (pid did : String)
    (hgen : ∀ p, r.generate p = .ok out)
    (htrim : jsTrim out = "CANNOT_ANSWER") :
    (agentQueryRest st r q calls pid did).2.1 =
      { ok := true, sql := none, rows := [], columns := [],
        message := some cannotAnswerMsg, error := none } ∧
    (agentQueryRest st r q calls pid did).2.2.queries = calls.queries := by
  simp [agentQueryRest, hgen, htrim]

/-- C4: whenever the model's output trims to exactly the sentinel
`CANNOT_ANSWER`, the agent returns the normal non-error envelope
`ok, true / sql, null / rows and columns empty / message, the fixed
non-empty guidance string` and never invokes warehouse query
execution. -/
theorem agentQuery_unanswerable_sentinel (st : AppState) (r : Remote)
    (q out : String)
    (hc : clientConstructible st = true)
    (hk : geminiConstructible st = true)
    (hd : falsy st.store.datasetId = false)
    (hgen : ∀ p, r.generate p = .ok out)
    (htrim : jsTrim out = "CANNOT_ANSWER")
    (hready : st.tableSchemaCache ≠ [] ∨
      (∃ ts, r.getTables = .ok ts ∧ firstWalkError r.getMetadata ts = none)) :
    (agentQuery st r q).2.1 =
      { ok := true, sql := none, rows := [], columns := [],
        message := some cannotAnswerMsg, error := none } ∧
    cannotAnswerMsg ≠ "" ∧
    (agentQuery st r q).2.2.queries = 0 := by
  obtain ⟨c, st1, hbq⟩ := getBigQueryClient_ok hc
  obtain ⟨hs1, hc1, hg1⟩ := getBigQueryClient_preserves hbq
  have hk1 : geminiConstructible st1 = true := by
    unfold geminiConstructible at hk ⊢
    rw [hs1, hg1]
    exact hk
  obtain ⟨g, st2, hgem⟩ := getGeminiClient_ok hk1
  obtain ⟨hs2, hc2, hb2⟩ := getGeminiClient_preserves hgem
  have hd2 : falsy st2.store.datasetId = false := by rw [hs2, hs1]; exact hd
  refine ⟨?_, by decide, ?_⟩ <;>
  · simp only [agentQuery, hbq, hgem, hd2, Bool.false_eq_true, if_false]
    by_cases hemp : st2.tableSchemaCache.isEmpty = true
    · rw [if_pos hemp]
      have hcE : st.tableSchemaCache = [] := by
        rw [← hc1, ← hc2]
        exact List.isEmpty_iff.mp hemp
      rcases hready with hne | ⟨ts, hts, hwalk⟩
      · exact absurd hcE hne
      · rw [hts]
        simp only [walkTables_eq, hwalk]
        first
          | exact (agentQueryRest_sentinel _ r q _ _ _ hgen htrim).1
          | exact (agentQueryRest_sentinel _ r q _ _ _ hgen htrim).2
    · rw [if_neg hemp]
      first
        | exact (agentQueryRest_sentinel _ r q _ _ _ hgen htrim).1
        | exact (agentQueryRest_sentinel _ r q _ _ _ hgen htrim).2

/-- C2 (amended): a schema-cache refresh is not atomic. If the initial
table listing itself fails, the cache is left unchanged; otherwise the
cache afterwards equals its prior contents overwritten, in listing
order, with one entry per table up to (and not including) the first
table whose metadata fetch fails — so a mid-walk failure leaves the
already-fetched entries observable. The connectivity check succeeds
exactly when the whole walk does, and the lazy in-question refresh
(which only runs from an empty cache) yields exactly the complete new
listing on full success. -/
theorem schemaRefresh_partial_writes (st : AppState) (r : Remote) (q : String)
    (hc : clientConstructible st = true)
    (hk : geminiConstructible st = true)
    (hd : falsy st.store.datasetId = false) :
    ((∀ e, r.getTables = .error e →
        (testConnection st r).1.tableSchemaCache = st.tableSchemaCache) ∧
     (∀ ts, r.getTables = .ok ts →
        (testConnection st r).1.tableSchemaCache =
          List.foldl (fun acc ent => objSet acc ent.1 ent.2) st.tableSchemaCache
            (okFetched r.getMetadata ts) ∧
        ((testConnection st r).2.ok = true ↔
          firstWalkError r.getMetadata ts = none))) ∧
    (st.tableSchemaCache = [] →
      (∀ e, r.getTables = .error e →
        (agentQuery st r q).1.tableSchemaCache = []) ∧
      (∀ ts, r.getTables = .ok ts →
        (agentQuery st r q).1.tableSchemaCache =
          List.foldl (fun acc ent => objSet acc ent.1 ent.2) []
            (okFetched r.getMetadata ts) ∧
        (ts.Nodup →
          (agentQuery st r q).1.tableSchemaCache = okFetched r.getMetadata ts))) := by
  obtain ⟨c, st1, hbq⟩ := getBigQueryClient_ok hc
  obtain ⟨hs1, hc1, hg1⟩ := getBigQueryClient_preserves hbq
  have hk1 : geminiConstructible st1 = true := by
    unfold geminiConstructible at hk ⊢
    rw [hs1, hg1]
    exact hk
  obtain ⟨g, st2, hgem⟩ := getGeminiClient_ok hk1
  obtain ⟨hs2, hc2, hb2⟩ := getGeminiClient_preserves hgem
  have hd1 : falsy st1.store.datasetId = false := by rw [hs1]; exact hd
  have hd2 : falsy st2.store.datasetId = false := by rw [hs2, hs1]; exact hd
  constructor
  · constructor
    · intro e hte
      simp [testConnection, hbq, hd1, hte, hc1]
    · intro ts hts
      simp only [testConnection, hbq, hd1, Bool.false_eq_true, if_false, hts,
        walkTables_eq]
      constructor
      · cases hw : firstWalkError r.getMetadata ts <;> simp [hw, hc1]
      · cases hw : firstWalkError r.getMetadata ts <;> simp [hw]
  · intro hempty
    have hemp2 : st2.tableSchemaCache.isEmpty = true := by
      rw [List.isEmpty_iff, hc2, hc1]
      exact hempty
    have hcc : st2.tableSchemaCache = [] := List.isEmpty_iff.mp hemp2
    constructor
    · intro e hte
      simp [agentQuery, hbq, hgem, hd2, hemp2, hte, hcc]
    · intro ts hts
      have hmain : (agentQuery st r q).1.tableSchemaCache =
          List.foldl (fun acc ent => objSet acc ent.1 ent.2) []
            (okFetched r.getMetadata ts) := by
        simp only [agentQuery, hbq, hgem, hd2, Bool.false_eq_true, if_false,
          hemp2, eq_self_iff_true, if_true, hts]
        rw [hcc]
        simp only [walkTables_eq]
        cases hw : firstWalkError r.getMetadata ts with
        | some e => simp [hw]
        | none =>
          simp only [hw]
          rw [(agentQueryRest_state _ r q _ _ _).1]
      refine ⟨hmain, fun hnd => ?_⟩
      rw [hmain, foldl_objSet_nil]
      have hkeys : (okFetched r.getMetadata ts).map Prod.fst =
          ts.takeWhile (fun t => exOk (r.getMetadata t)) := by
        unfold okFetched
        rw [List.map_map]
        have hcomp : (Prod.fst ∘ fun t => (t, exFields (r.getMetadata t))) =
            (id : String → String) := rfl
        rw [hcomp, List.map_id]
      rw [hkeys]
      exact hnd.sublist (List.takeWhile_sublist _)

/-- Counterexample to C2 as stated: with an empty cache, a listing of
two tables whose second metadata fetch fails makes the connectivity
check fail, yet afterwards the cache is not the empty mapping it held
before — the first table's entry was written and remains. -/
theorem schemaRefresh_partial_writes_cex :
    (testConnection cex2St cex2Remote).2.ok = false ∧
    cex2St.tableSchemaCache = [] ∧
    (testConnection cex2St cex2Remote).1.tableSchemaCache =
      [("a", [⟨"x", "STRING"⟩])] := by decide

/-- Witness for C2 (amended) at a concrete state and a fully
succeeding one-table remote. -/
theorem schemaRefresh_partial_writes_witness :
    (testConnection cex2St wit2Remote).1.tableSchemaCache =
      List.foldl (fun acc ent => objSet acc ent.1 ent.2) cex2St.tableSchemaCache
        (okFetched wit2Remote.getMetadata ["a"]) ∧
    ((testConnection cex2St wit2Remote).2.ok = true ↔
      firstWalkError wit2Remote.getMetadata ["a"] = none) :=
  ((schemaRefresh_partial_writes cex2St wit2Remote "q" (by decide) (by decide)
      (by decide)).1.2 ["a"] rfl)

/-- C3 (amended): once a run of the agent has left the schema cache
non-empty, a second run performs no remote listing and sees the very
same table-to-columns mapping; any single run performs at most one
listing. (As stated the claim fails: a dataset whose listing returns
no tables leaves the cache empty, so the second call lists again.) -/
theorem ensureSchema_idempotent_when_populated (st : AppState) (r : Remote)
    (q1 q2 : String)
    (h : (agentQuery st r q1).1.tableSchemaCache ≠ []) :
    (agentQuery (agentQuery st r q1).1 r q2).2.2.listings = 0 ∧
    (agentQuery (agentQuery st r q1).1 r q2).1.tableSchemaCache =
      (agentQuery st r q1).1.tableSchemaCache ∧
    (agentQuery st r q1).2.2.listings ≤ 1 :=
  ⟨(agentQuery_cache_kept _ r q2 h).1, (agentQuery_cache_kept _ r q2 h).2,
   agentQuery_listings_le_one st r q1⟩

/-- Counterexample to C3 as stated: over an empty dataset (a listing
that succeeds with zero tables) the first ensure-schema run leaves the
cache empty, so two back-to-back agent runs perform one remote listing
each — two in total, and the second call does perform a remote call. -/
theorem ensureSchema_idempotent_cex :
    (agentQuery cex3St cex3Remote "q").2.2.listings +
      (agentQuery (agentQuery cex3St cex3Remote "q").1 cex3Remote "q").2.2.listings = 2 ∧
    (agentQuery (agentQuery cex3St cex3Remote "q").1 cex3Remote "q").2.2.listings ≠ 0 := by
  decide

/-- Witness for C3 (amended) at a concrete state whose first run
populates the cache from a one-table dataset. -/
theorem ensureSchema_idempotent_witness :
    (agentQuery (agentQuery cex3St wit3Remote "a").1 wit3Remote "b").2.2.listings = 0 ∧
    (agentQuery (agentQuery cex3St wit3Remote "a").1 wit3Remote "b").1.tableSchemaCache =
      (agentQuery cex3St wit3Remote "a").1.tableSchemaCache ∧
    (agentQuery cex3St wit3Remote "a").2.2.listings ≤ 1 :=
  ensureSchema_idempotent_when_populated cex3St wit3Remote "a" "b" (by decide)

/-- Witness for C4 at a concrete configured state with a populated
cache and a model answering with the sentinel. -/
theorem agentQuery_unanswerable_sentinel_witness :
    (agentQuery wit4St wit4Remote "what is the meaning of life?").2.1 =
      { ok := true, sql := none, rows := [], columns := [],
        message := some cannotAnswerMsg, error := none } ∧
    cannotAnswerMsg ≠ "" ∧
    (agentQuery wit4St wit4Remote "what is the meaning of life?").2.2.queries = 0 :=
  agentQuery_unanswerable_sentinel wit4St wit4Remote "what is the meaning of life?"
    "CANNOT_ANSWER" (by decide) (by decide) (by decide) (fun p => rfl) (by decide)
    (Or.inl (by decide))

end BigQAgent
